import Mathlib

/-!
# Verification of the Cortex wallet / payment-settlement core

Shallow embedding of the wallet and payment subsystem of the Cortex bot
(`database.py`, `core/ai_handler.py`, `core/bot_handlers.py`,
`services/wallet_manager.py`, `services/encryption.py`).

Modelling conventions:
* Python floats holding monetary amounts are modelled as exact integers at
  lamport scale (`ℤ`, integral multiples of 10⁻⁹ of the asset unit).  Every
  configured constant is an exact multiple of 10⁻⁹, and the source performs
  only linear comparisons and sums on amounts, so the scaling is faithful;
  it was checked separately that the IEEE-754 double computations performed
  by the source on these constants yield the same equalities/inequalities.
* MongoDB collections are modelled as lists of user documents; `update_one`
  updates the first document matching the filter, `insert_one` appends.
* External collaborators (the balance oracle, the network submission service,
  the `solders` keypair library) are parameters of the functions that call them.
* The `cryptography` library's Fernet authenticated encryption and the
  SHA-256 / PBKDF2 derivation are idealized: a derived cipher is identified
  with its (master secret, salt-input) pair — i.e. the hash/KDF chain is
  treated as collision-free — and a Fernet token decrypts successfully exactly
  under the cipher that produced it (authenticated encryption with an ideal MAC).
* Network, store and poll side effects are reified as an event trace so that
  ordering claims ("commit before submit", "write only after confirmation",
  "zero network calls") become statements about the trace.
-/

namespace Cortex

/-- Supported payment tokens (`config.SUPPORTED_PAYMENT_TOKENS`). -/
inductive Token
  | SOL
  | USDC
  | USDT
deriving DecidableEq, Repr

/-- `config.BASE_TRANSACTION_FEE = 0.000005` SOL, in lamports. -/
def BASE_TRANSACTION_FEE : ℤ := 5000

/-- `config.RENT_EXEMPTION_FEE = 0.00089088` SOL, in lamports. -/
def RENT_EXEMPTION_FEE : ℤ := 890880

/-- `config.ATA_CREATION_FEE = 0.00204` SOL, in lamports. -/
def ATA_CREATION_FEE : ℤ := 2040000

/-- `config.MINIMUM_SOL_TRANSFER_NEW_USER = 0.001` SOL, in lamports. -/
def MINIMUM_SOL_TRANSFER_NEW_USER : ℤ := 1000000

/-- `AIHandler._estimate_network_fee(needs_rent_exemption, token)`
(`core/ai_handler.py`). Base fee, plus rent exemption if the recipient
account must be created, plus the associated-token-account creation fee for
SPL tokens when rent exemption is needed. -/
def estimate_network_fee (needs_rent_exemption : Bool) (token : Token) : ℤ :=
  let base_fee := BASE_TRANSACTION_FEE
  let total_fee := if needs_rent_exemption then base_fee + RENT_EXEMPTION_FEE else base_fee
  if (token = Token.USDC ∨ token = Token.USDT) ∧ needs_rent_exemption then
    total_fee + ATA_CREATION_FEE
  else
    total_fee

/-! ## Key derivation and Fernet encryption (`database.py`, `services/encryption.py`)

The source derives a per-identity Fernet cipher:
`salt = sha256(str(telegram_id)).digest()`,
`key = urlsafe_b64(PBKDF2HMAC(master_secret, salt, 100000 iters))`, `Fernet(key)`.
Idealization: the chain `id ↦ str(id) ↦ sha256 ↦ PBKDF2 ↦ Fernet key` is
injective (collision-free hash/KDF), so a derived cipher is identified with
the pair (master secret, salt input).  Fernet is authenticated encryption:
a token decrypts successfully exactly under the key that produced it;
decryption under any other key raises `InvalidToken` (modelled as `none`). -/

/-- The salt input fed to the KDF.  The source passes `str(telegram_id)` for an
`int` id; `execute_payment_secure` can in principle pass `None`
(`str(None) = "None"`), kept as a distinct constructor. -/
inductive KeyId
  | ofNat (n : ℕ)
  | noneId
deriving DecidableEq, Repr

/-- Ideal model of `Database.derive_key_from_telegram_id` /
`EncryptionManager.derive_key_from_id`: the derived Fernet cipher, identified
with its (master secret, salt input) pair. -/
structure FernetKey where
  master : String
  salt : KeyId
deriving DecidableEq, Repr

/-- A Fernet token.  Ideal authenticated encryption: the token records the key
it was produced under and the plaintext; the MAC check succeeds exactly for
that key. -/
structure FernetToken where
  key : FernetKey
  plaintext : String
deriving DecidableEq, Repr

def derive_key_from_telegram_id (master : String) (telegram_id : KeyId) : FernetKey :=
  ⟨master, telegram_id⟩

/-- `Database.encrypt_private_key(private_key, telegram_id)`. -/
def encrypt_private_key (master : String) (private_key : String) (telegram_id : KeyId) :
    FernetToken :=
  ⟨derive_key_from_telegram_id master telegram_id, private_key⟩

/-- `Database.decrypt_private_key(encrypted_key, telegram_id)`.  `none` models
the `cryptography.fernet.InvalidToken` exception raised when the MAC check
under the derived cipher fails. -/
def decrypt_private_key (master : String) (encrypted_key : FernetToken)
    (telegram_id : KeyId) : Option String :=
  if encrypted_key.key = derive_key_from_telegram_id master telegram_id then
    some encrypted_key.plaintext
  else
    none

/-- Base-2097152 accumulation over a character list (kernel-reducible helper
for the ideal hash model below). -/
def char_fold : List Char → ℕ → ℕ
  | [], acc => acc
  | c :: rest, acc => char_fold rest (acc * 2097152 + (c.toNat + 1))

/-- Ideal model of
`int(hashlib.sha256(username.encode()).hexdigest(), 16)`
(used in `bot_handlers.py` and `Database.claim_pending_wallet`): an injective
encoding of the string standing in for the collision-free digest. -/
def sha256_int (s : String) : ℕ :=
  char_fold s.data 0

/-- `... % (10 ** 8)`, exactly as in the source. -/
def username_hash (username : String) : ℕ :=
  sha256_int username % (10 ^ 8)

/-- ASCII lowercasing of one character (`str.lower()` on the ASCII handles
this system uses). -/
def lower_char (c : Char) : Char :=
  if 65 ≤ c.toNat ∧ c.toNat ≤ 90 then Char.ofNat (c.toNat + 32) else c

/-- `username.lstrip('@').lower()`, the normalization applied throughout. -/
def normalize_username (username : String) : String :=
  String.mk ((username.data.dropWhile (fun c => c = '@')).map lower_char)

/-- Python truthiness for an optional string field: `None` and `""` are falsy.
Used where the source tests `if doc.get(field)`. -/
def opt_str : Option String → Option String
  | some s => if s.data.isEmpty then none else some s
  | none => none

/-- Python truthiness for an optional integer id: `None` and `0` are falsy. -/
def opt_id : Option ℕ → Option ℕ
  | some 0 => none
  | some n => some n
  | none => none

/-! ## The user store (`database.py`)

The MongoDB `users` collection is modelled as a list of user documents;
`find_one` returns the first document matching the filter, `update_one`
updates the first matching document (reporting whether one matched),
`insert_one` appends.  Timestamps (`datetime.now()`) are passed in as a `now`
parameter. -/

/-- A payment notification payload (the `notification_data` dict built in
`execute_payment_secure`). -/
structure Notif where
  ntype : String
  amount : ℤ
  token : Token
  sender_username : Option String
  sender_wallet : Option String
  signature : String
  timestamp : ℕ
deriving DecidableEq, Repr

/-- A transaction-history row (the dict built in
`Database.save_payment_transaction`). -/
structure TxRec where
  signature : String
  is_outgoing : Bool
  sender_username : Option String
  sender_wallet : Option String
  recipient_username : Option String
  recipient_wallet : Option String
  amount : ℤ
  token : Token
  network_fee : ℤ
  timestamp : ℕ
  status : String
deriving DecidableEq, Repr

/-- A document of the `users` collection (fields relevant to the wallet /
payment core). -/
structure UserRec where
  telegram_id : Option ℕ
  username : Option String
  wallet_address : Option String
  encrypted_private_key : Option FernetToken
  wallet_type : Option String
  wallet_created_at : Option ℕ
  last_updated : Option ℕ
  pending_wallet_address : Option String
  pending_private_key : Option FernetToken
  pending_notifications : List Notif
  transactions : List TxRec
  total_payments_sent : ℕ
  total_payments_received : ℕ
deriving DecidableEq, Repr

/-- `find_one(filter)`: first document satisfying the predicate. -/
def find_first (p : UserRec → Prop) [DecidablePred p] : List UserRec → Option UserRec
  | [] => none
  | u :: rest => if p u then some u else find_first p rest

/-- `update_one(filter, update)`: update the first matching document; the
boolean is `matched_count > 0`. -/
def update_first (p : UserRec → Prop) [DecidablePred p] (f : UserRec → UserRec) :
    List UserRec → List UserRec × Bool
  | [] => ([], false)
  | u :: rest =>
    if p u then (f u :: rest, true)
    else
      let r := update_first p f rest
      (u :: r.1, r.2)

/-- `Database.get_user(telegram_id)`. -/
def get_user (store : List UserRec) (telegram_id : ℕ) : Option UserRec :=
  find_first (fun u => u.telegram_id = some telegram_id) store

/-- `Database.get_user_by_username(username)` (normalizes the handle). -/
def get_user_by_username (store : List UserRec) (username : String) : Option UserRec :=
  find_first (fun u => u.username = some (normalize_username username)) store

/-- `Database.save_wallet(telegram_id, wallet_address, private_key, wallet_type)`:
encrypts the key under the id-derived cipher and unconditionally `$set`s the
wallet fields on the matching user document.  Returns `False` exactly when no
document matched; otherwise `True` (both the modified and the
"data unchanged" branches of the source return `True`). -/
def save_wallet (master : String) (store : List UserRec) (telegram_id : ℕ)
    (wallet_address : String) (private_key : String) (wallet_type : String)
    (now : ℕ) : List UserRec × Bool :=
  let encrypted_key := encrypt_private_key master private_key (KeyId.ofNat telegram_id)
  update_first (fun u => u.telegram_id = some telegram_id)
    (fun u => { u with
      wallet_address := some wallet_address,
      encrypted_private_key := some encrypted_key,
      wallet_type := some wallet_type,
      wallet_created_at := some now,
      last_updated := some now }) store

/-- `Database.get_decrypted_private_key(telegram_id)`.  `none` covers both the
source's `None` return (no user / no stored ciphertext) and a decryption
failure (which the source lets propagate as an exception). -/
def get_decrypted_private_key (master : String) (store : List UserRec)
    (telegram_id : ℕ) : Option String :=
  match get_user store telegram_id with
  | none => none
  | some u =>
    match u.encrypted_private_key with
    | none => none
    | some enc => decrypt_private_key master enc (KeyId.ofNat telegram_id)

/-- `Database.add_pending_notification(telegram_id, notification)`: `$push` on
the matching document.  The source returns `True` unconditionally on the
non-exception path, even when nothing matched. -/
def add_pending_notification (store : List UserRec) (telegram_id : ℕ)
    (notification : Notif) : List UserRec × Bool :=
  let r := update_first (fun u => u.telegram_id = some telegram_id)
    (fun u => { u with pending_notifications := u.pending_notifications ++ [notification] })
    store
  (r.1, true)

/-- `Database.add_pending_notification_by_username(username, notification_data)`:
`$push` on the pending document (no telegram id); returns
`modified_count > 0`. -/
def add_pending_notification_by_username (store : List UserRec) (username : String)
    (notification_data : Notif) : List UserRec × Bool :=
  update_first
    (fun u => u.username = some (normalize_username username) ∧ u.telegram_id = none)
    (fun u => { u with pending_notifications := u.pending_notifications ++ [notification_data] })
    store

/-- `Database.activate_pending_wallet(telegram_id, wallet_address,
encrypted_private_key)`: sets the wallet fields and clears the pending fields
on the matching user. -/
def activate_pending_wallet (store : List UserRec) (telegram_id : Option ℕ)
    (wallet_address : String) (encrypted_private_key : FernetToken) (now : ℕ) :
    List UserRec × Bool :=
  update_first (fun u => u.telegram_id = telegram_id)
    (fun u => { u with
      wallet_address := some wallet_address,
      encrypted_private_key := some encrypted_private_key,
      wallet_type := some "auto_created",
      wallet_created_at := some now,
      last_updated := some now,
      pending_wallet_address := none,
      pending_private_key := none }) store

/-- The `tx_data` argument of `Database.save_payment_transaction`. -/
structure TxData where
  signature : String
  sender_username : Option String
  sender_wallet : Option String
  recipient_username : Option String
  recipient_wallet : Option String
  amount : ℤ
  token : Token
  network_fee : ℤ
deriving DecidableEq, Repr

/-- `Database.save_payment_transaction(telegram_id, tx_data, is_sender)`:
appends a transaction row and increments the corresponding payments counter
on the matching user. -/
def save_payment_transaction (store : List UserRec) (telegram_id : ℕ)
    (tx_data : TxData) (is_sender : Bool) (now : ℕ) : List UserRec × Bool :=
  let transaction : TxRec :=
    { signature := tx_data.signature,
      is_outgoing := is_sender,
      sender_username := tx_data.sender_username,
      sender_wallet := tx_data.sender_wallet,
      recipient_username := tx_data.recipient_username,
      recipient_wallet := tx_data.recipient_wallet,
      amount := tx_data.amount,
      token := tx_data.token,
      network_fee := tx_data.network_fee,
      timestamp := now,
      status := "confirmed" }
  update_first (fun u => u.telegram_id = some telegram_id)
    (fun u => { u with
      transactions := u.transactions ++ [transaction],
      last_updated := some now,
      total_payments_sent := u.total_payments_sent + (if is_sender then 1 else 0),
      total_payments_received := u.total_payments_received + (if is_sender then 0 else 1) })
    store

/-- `Database.create_pending_user_by_username(username, wallet_address,
encrypted_private_key, notification_data)`: if a document for the handle
exists, only append the notification (to the active or the pending document);
otherwise insert a fresh pending document carrying the wallet. -/
def create_pending_user_by_username (store : List UserRec) (username : String)
    (wallet_address : Option String) (encrypted_private_key : FernetToken)
    (notification_data : Notif) (now : ℕ) : List UserRec × Bool :=
  let normalized := normalize_username username
  match find_first (fun u => u.username = some normalized) store with
  | some existing =>
    match existing.telegram_id with
    | some tid => add_pending_notification store tid notification_data
    | none => add_pending_notification_by_username store normalized notification_data
  | none =>
    let user_data : UserRec :=
      { telegram_id := none,
        username := some normalized,
        wallet_address := none,
        encrypted_private_key := none,
        wallet_type := some "auto_created_pending",
        wallet_created_at := none,
        last_updated := some now,
        pending_wallet_address := wallet_address,
        pending_private_key := some encrypted_private_key,
        pending_notifications := [notification_data],
        transactions := [],
        total_payments_sent := 0,
        total_payments_received := 0 }
    (store ++ [user_data], true)

/-- Result dict of `Database.claim_pending_wallet`. -/
structure ClaimResult where
  success : Bool
  wallet_address : Option String
  private_key : Option String
  notifications : List Notif
deriving DecidableEq, Repr

/-- The read phase of `Database.claim_pending_wallet`:
`find_one({"username": normalized, "telegram_id": None})`. -/
def claim_read (store : List UserRec) (normalized : String) : Option UserRec :=
  find_first (fun u => u.username = some normalized ∧ u.telegram_id = none) store

/-- The write phase of `Database.claim_pending_wallet`, acting on the snapshot
`pending` obtained by the read phase: decrypt the pending key under the
handle-derived cipher, re-encrypt under the id-derived cipher, issue the
conditional `update_one({"username": ..., "telegram_id": None}, ...)` — whose
result the source ignores — and return success together with the plaintext key
and the queued notifications taken from the snapshot. -/
def claim_commit (master : String) (store : List UserRec) (telegram_id : ℕ)
    (normalized : String) (pending : UserRec) (now : ℕ) :
    List UserRec × ClaimResult :=
  match pending.pending_wallet_address with
  | none => (store, ⟨false, none, none, []⟩)
  | some addr =>
    match pending.pending_private_key with
    | none => (store, ⟨false, none, none, []⟩)
    | some enc =>
      match decrypt_private_key master enc (KeyId.ofNat (username_hash normalized)) with
      | none => (store, ⟨false, none, none, []⟩)
      | some private_key =>
        let encrypted_key := encrypt_private_key master private_key (KeyId.ofNat telegram_id)
        let r := update_first
          (fun u => u.username = some normalized ∧ u.telegram_id = none)
          (fun u => { u with
            telegram_id := some telegram_id,
            wallet_address := some addr,
            encrypted_private_key := some encrypted_key,
            wallet_type := some "auto_created",
            wallet_created_at := some now,
            last_updated := some now,
            pending_wallet_address := none,
            pending_private_key := none }) store
        (r.1, ⟨true, some addr, some private_key, pending.pending_notifications⟩)

/-- `Database.claim_pending_wallet(telegram_id, username)`: read phase followed
by write phase. -/
def claim_pending_wallet (master : String) (store : List UserRec)
    (telegram_id : ℕ) (username : String) (now : ℕ) : List UserRec × ClaimResult :=
  let normalized := normalize_username username
  match claim_read store normalized with
  | none => (store, ⟨false, none, none, []⟩)
  | some pending => claim_commit master store telegram_id normalized pending now

/-! ## Balance validation (`AIHandler._check_payment_balance`) -/

/-- The balances returned by `_get_wallet_balance_alchemy` for one wallet. -/
structure Balances where
  sol : ℤ
  usdc : ℤ
  usdt : ℤ
deriving DecidableEq, Repr

def Balances.get (b : Balances) : Token → ℤ
  | Token.SOL => b.sol
  | Token.USDC => b.usdc
  | Token.USDT => b.usdt

/-- Result dict shape `{"success": ..., "error": ...}` used by the validation
helpers. -/
structure CheckResult where
  success : Bool
  error : Option String
deriving DecidableEq, Repr

/-- `AIHandler._check_payment_balance(telegram_id, amount, token, network_fee)`
(`core/ai_handler.py`).  `getBalances` is the Alchemy balance oracle.  For the
native asset the sender needs `amount + network_fee` SOL; for USDC/USDT the
sender needs `amount` of the token and, separately, `network_fee` SOL for
gas. -/
def check_payment_balance (getBalances : String → Balances) (store : List UserRec)
    (telegram_id : ℕ) (amount : ℤ) (token : Token) (network_fee : ℤ) : CheckResult :=
  match get_user store telegram_id with
  | none => ⟨false, some "Wallet not found"⟩
  | some u =>
    match opt_str u.wallet_address with
    | none => ⟨false, some "Wallet not found"⟩
    | some wallet_address =>
      let balances := getBalances wallet_address
      if token = Token.SOL then
        let required := amount + network_fee
        if balances.sol < required then
          ⟨false, some "Insufficient balance"⟩
        else
          ⟨true, none⟩
      else
        if balances.get token < amount then
          ⟨false, some "Insufficient token"⟩
        else if balances.sol < network_fee then
          ⟨false, some "Insufficient SOL for gas"⟩
        else
          ⟨true, none⟩

/-- Concrete sender document used by the C6 witness. -/
def c6_user : UserRec :=
  { telegram_id := some 7, username := some "w", wallet_address := some "W",
    encrypted_private_key := none, wallet_type := none,
    wallet_created_at := none, last_updated := none,
    pending_wallet_address := none, pending_private_key := none,
    pending_notifications := [], transactions := [],
    total_payments_sent := 0, total_payments_received := 0 }

/-- Concrete balance oracle used by the C6 witness. -/
def c6_oracle : String → Balances := fun _ => ⟨2000000000, 5000000000, 0⟩

/-- The stored user document used by the C3 counterexample: user 1 already
owns wallet `ADDR_A`. -/
def c3_user : UserRec :=
  { telegram_id := some 1, username := some "bob", wallet_address := some "ADDR_A",
    encrypted_private_key := some (encrypt_private_key "m" "KEY_A" (KeyId.ofNat 1)),
    wallet_type := some "generated", wallet_created_at := some 10,
    last_updated := some 10, pending_wallet_address := none,
    pending_private_key := none, pending_notifications := [], transactions := [],
    total_payments_sent := 0, total_payments_received := 0 }

/-! ## C4: racing claims of the same pending wallet -/

/-- The pending wallet document used by the C4 race: handle `alice`, wallet
`PADDR`, key encrypted under the handle-derived cipher. -/
def c4_pending : UserRec :=
  { telegram_id := none, username := some "alice", wallet_address := none,
    encrypted_private_key := none, wallet_type := some "auto_created_pending",
    wallet_created_at := none, last_updated := some 5,
    pending_wallet_address := some "PADDR",
    pending_private_key :=
      some (encrypt_private_key "m" "PSECRET" (KeyId.ofNat (username_hash "alice"))),
    pending_notifications := [], transactions := [],
    total_payments_sent := 0, total_payments_received := 0 }

/-! ## Payment validation (`AIHandler._send_payment`, `core/ai_handler.py`)

The function only reads the store (no write path); its side effects are the
balance-oracle network reads, reified in the returned trace.  The
string-to-float parsing of the amount is elided: `amount` is the parsed
value. -/

/-- The four-way recipient classification of Step 5. -/
inductive RecipientStatus
  | new_user
  | active
  | user_no_wallet
  | pending_wallet
deriving DecidableEq, Repr

/-- Network reads performed during validation. -/
inductive VEvent
  | getSolBalance (addr : String)
  | getBalances (addr : String)
deriving DecidableEq, Repr

/-- The distinct error messages `_send_payment` can return. -/
inductive SendErr
  | amountNotPositive
  | noSenderWallet
  | unknownRecipientStatus
  | minimumTransferNewUser
  | recipientLowBalance
  | insufficientFunds (msg : String)
deriving DecidableEq, Repr

/-- The `payment_data` dict of a successful preview. -/
structure PaymentData where
  recipient_username : String
  recipient_wallet : Option String
  recipient_status : RecipientStatus
  recipient_telegram_id : Option ℕ
  amount : ℤ
  token : Token
  network_fee : ℤ
  needs_wallet_creation : Bool
  sender_username : Option String
  sender_wallet : Option String
deriving DecidableEq, Repr

inductive SendResult
  | ok (payment_data : PaymentData)
  | err (e : SendErr)
deriving DecidableEq, Repr

def SendResult.isOk : SendResult → Bool
  | .ok _ => true
  | .err _ => false

/-- Step-5 classification data (status, id, wallet, `needs_wallet_creation`,
`needs_rent_exemption`). -/
structure Classified where
  recipient_status : RecipientStatus
  recipient_telegram_id : Option ℕ
  recipient_wallet : Option String
  needs_wallet_creation : Bool
  needs_rent_exemption : Bool
deriving DecidableEq, Repr

/-- The `if/elif` chain of Step 5: no document → new user; truthy id and
wallet → active; truthy id, no wallet → user without wallet; no id but a
pending wallet → pending wallet; anything else → indeterminate. -/
def classify_recipient (recipient : Option UserRec) : Option Classified :=
  match recipient with
  | none => some ⟨RecipientStatus.new_user, none, none, true, true⟩
  | some r =>
    match opt_id r.telegram_id, opt_str r.wallet_address with
    | some tid, some w => some ⟨RecipientStatus.active, some tid, some w, false, false⟩
    | some tid, none => some ⟨RecipientStatus.user_no_wallet, some tid, none, true, true⟩
    | none, _ =>
      match opt_str r.pending_wallet_address with
      | some pw => some ⟨RecipientStatus.pending_wallet, none, some pw, false, false⟩
      | none => none

/-- Step 7.5 of `_send_payment`: for an *active* recipient paid in SOL, read
the recipient's live on-chain balance (a network call); if it is below the
rent-exemption threshold (the source hardcodes `0.00089088`, the value of
`RENT_EXEMPTION_FEE`) and the amount is below
`MINIMUM_SOL_TRANSFER_NEW_USER`, reject.  Returns (events, rejected).
When the balance is low but the amount is sufficient the source flips its
local `needs_rent_exemption` flag, which is not used again in the rest of the
function (the fee was computed at Step 6), so it is not threaded here. -/
def live_balance_recheck (sol_oracle : String → ℤ) (c : Classified) (amount : ℤ)
    (token : Token) : List VEvent × Bool :=
  match opt_str c.recipient_wallet with
  | some rw =>
    if c.recipient_status = RecipientStatus.active ∧ token = Token.SOL then
      if sol_oracle rw < RENT_EXEMPTION_FEE ∧ amount < MINIMUM_SOL_TRANSFER_NEW_USER then
        ([VEvent.getSolBalance rw], true)
      else
        ([VEvent.getSolBalance rw], false)
    else ([], false)
  | none => ([], false)

/-- `AIHandler._send_payment(telegram_id, recipient_username, amount, token)`:
validation pipeline producing a payment preview.  Token validation (Step 3)
is absorbed by the `Token` type, which covers exactly
`SUPPORTED_PAYMENT_TOKENS`. -/
def send_payment (sol_oracle : String → ℤ) (balances_oracle : String → Balances)
    (store : List UserRec) (telegram_id : ℕ) (recipient_username : String)
    (amount : ℤ) (token : Token) : SendResult × List VEvent :=
  if amount ≤ 0 then (.err .amountNotPositive, [])
  else
    match get_user store telegram_id with
    | none => (.err .noSenderWallet, [])
    | some sender =>
      match opt_str sender.wallet_address with
      | none => (.err .noSenderWallet, [])
      | some sender_wallet =>
        match classify_recipient (get_user_by_username store recipient_username) with
        | none => (.err .unknownRecipientStatus, [])
        | some c =>
          let network_fee := estimate_network_fee c.needs_rent_exemption token
          if c.needs_rent_exemption ∧ token = Token.SOL ∧
              amount < MINIMUM_SOL_TRANSFER_NEW_USER then
            (.err .minimumTransferNewUser, [])
          else
            let lc := live_balance_recheck sol_oracle c amount token
            if lc.2 then
              (.err .recipientLowBalance, lc.1)
            else
              let bc := check_payment_balance balances_oracle store telegram_id
                amount token network_fee
              let evs := lc.1 ++ [VEvent.getBalances sender_wallet]
              if bc.success then
                (.ok
                  { recipient_username := normalize_username recipient_username,
                    recipient_wallet := c.recipient_wallet,
                    recipient_status := c.recipient_status,
                    recipient_telegram_id := c.recipient_telegram_id,
                    amount := amount,
                    token := token,
                    network_fee := network_fee,
                    needs_wallet_creation := c.needs_wallet_creation,
                    sender_username := sender.username,
                    sender_wallet := some sender_wallet }, evs)
              else
                (.err (.insufficientFunds (bc.error.getD "")), evs)

/-! ## C7: live-balance re-check for active recipients -/

/-- Sender document for the C7 scenario. -/
def c7_sender : UserRec :=
  { telegram_id := some 7, username := some "sender7", wallet_address := some "SW",
    encrypted_private_key := none, wallet_type := none, wallet_created_at := none,
    last_updated := none, pending_wallet_address := none, pending_private_key := none,
    pending_notifications := [], transactions := [],
    total_payments_sent := 0, total_payments_received := 0 }

/-- Active recipient document (stored state active-with-wallet) for C7. -/
def c7_recipient : UserRec :=
  { telegram_id := some 8, username := some "carol", wallet_address := some "RW",
    encrypted_private_key := none, wallet_type := none, wallet_created_at := none,
    last_updated := none, pending_wallet_address := none, pending_private_key := none,
    pending_notifications := [], transactions := [],
    total_payments_sent := 0, total_payments_received := 0 }

def c7_store : List UserRec := [c7_sender, c7_recipient]

/-! ## Payment execution (`BotHandlers.execute_payment_secure` and
`payment_callback_handler`, `core/bot_handlers.py`)

All side effects — network reads, transfer submission, status polls, and
store writes — are reified as an ordered event trace; store writes also
update the modelled store.  External collaborators (`alchemy_transfer`,
`wallet_manager.create_new_wallet`) are supplied by an environment. -/

/-- `alchemy_transfer.get_transaction_status` results. -/
inductive TxStatus
  | pending
  | confirmed
  | failed
deriving DecidableEq, Repr

/-- Side effects of payment execution, in program order. -/
inductive Event
  | netGetSolBalance (addr : String)
  | netSubmit (token : Token) (recipient : Option String) (amount : ℤ)
  | netPoll (attempt : ℕ) (st : TxStatus)
  | dbActivatePendingWallet (tid : Option ℕ)
  | dbCreatePendingUser (username : String)
  | dbAddNotification (tid : ℕ)
  | dbAddNotificationByUsername (username : String)
  | dbSaveTx (tid : ℕ) (is_sender : Bool)
deriving DecidableEq, Repr

/-- Ledger rows: `Database.save_payment_transaction` calls. -/
def Event.isLedgerWrite : Event → Bool
  | .dbSaveTx _ _ => true
  | _ => false

/-- Recipient-notification store writes (Step 6 of the source). -/
def Event.isNotifWrite : Event → Bool
  | .dbCreatePendingUser _ => true
  | .dbAddNotification _ => true
  | .dbAddNotificationByUsername _ => true
  | _ => false

/-- Store writes that persist a wallet record
(`activate_pending_wallet`, `create_pending_user_by_username`). -/
def Event.isWalletPersist : Event → Bool
  | .dbActivatePendingWallet _ => true
  | .dbCreatePendingUser _ => true
  | _ => false

/-- Errors `execute_payment_secure` can return (the source returns message
strings; constructors name the distinct messages, with `exceptionRaised` for
the generic outer `except` handler). -/
inductive PayErr
  | walletNotFound
  | exceptionRaised
  | recipientLowBalance
  | walletCreationFailed
  | transferFailed
  | onChainFailed
  | confirmTimeout
deriving DecidableEq, Repr

inductive ExecResult
  | ok (signature : String) (recipient_wallet : Option String)
      (recipient_private_key : Option String)
  | err (e : PayErr)
deriving DecidableEq, Repr

def ExecResult.isOk : ExecResult → Bool
  | .ok _ _ _ => true
  | .err _ => false

/-- External collaborators of the execution path. -/
structure ExecEnv where
  master : String
  sol_balance : String → ℤ
  new_wallet : Option (String × String)
  transfer : Option String → Token → ℤ → Option String
  status : String → ℕ → TxStatus

inductive PollOutcome
  | confirmed
  | failedOnChain
  | timeout
deriving DecidableEq, Repr

/-- The Step-4 polling loop of `execute_payment_secure`: up to 30 attempts,
each reading `get_transaction_status`; break on `confirmed`, return failure
on `failed`, timeout once the attempt ceiling is exhausted. -/
def poll_confirmation (status : ℕ → TxStatus) : ℕ → ℕ → PollOutcome × List Event
  | 0, _ => (.timeout, [])
  | fuel + 1, attempt =>
    match status attempt with
    | .confirmed => (.confirmed, [.netPoll attempt .confirmed])
    | .failed => (.failedOnChain, [.netPoll attempt .failed])
    | .pending =>
      let r := poll_confirmation status fuel (attempt + 1)
      (r.1, .netPoll attempt .pending :: r.2)

/-- Step 2 of `execute_payment_secure`: for an active or pending-wallet
recipient paid in SOL, read the live balance; reject when it is below the
rent threshold (hardcoded `0.00089088` in the source) and the amount is below
the floor (hardcoded `0.001`).  Returns (events, rejected). -/
def exec_balance_recheck (env : ExecEnv) (pd : PaymentData) : List Event × Bool :=
  match opt_str pd.recipient_wallet with
  | some rw =>
    if (pd.recipient_status = RecipientStatus.active ∨
        pd.recipient_status = RecipientStatus.pending_wallet) ∧
        pd.token = Token.SOL then
      if env.sol_balance rw < RENT_EXEMPTION_FEE ∧
          pd.amount < MINIMUM_SOL_TRANSFER_NEW_USER then
        ([Event.netGetSolBalance rw], true)
      else
        ([Event.netGetSolBalance rw], false)
    else ([], false)
  | none => ([], false)

inductive WalletStep
  | fail (e : PayErr)
  | okStep (recipient_wallet : Option String) (recipient_private_key : Option String)
      (store : List UserRec) (events : List Event)
deriving Repr

/-- The wallet-creation step (Step 2, lines 1659–1696 of the source).
For a brand-new user the keypair is generated and its key encrypted under the
handle hash, but NOTHING is persisted here — the only store write of this
step is `activate_pending_wallet` in the registered-without-wallet case. -/
def exec_wallet_creation (env : ExecEnv) (store : List UserRec) (pd : PaymentData)
    (now : ℕ) : WalletStep :=
  match pd.recipient_status with
  | RecipientStatus.new_user =>
    match env.new_wallet with
    | none => .fail .walletCreationFailed
    | some (addr, pk) =>
      -- the encrypted key computed here by the source is recomputed at Step 6
      .okStep (some addr) (some pk) store []
  | RecipientStatus.user_no_wallet =>
    match env.new_wallet with
    | none => .fail .walletCreationFailed
    | some (addr, pk) =>
      let keyid := match pd.recipient_telegram_id with
        | some t => KeyId.ofNat t
        | none => KeyId.noneId
      let encrypted_key := encrypt_private_key env.master pk keyid
      let r := activate_pending_wallet store pd.recipient_telegram_id addr
        encrypted_key now
      .okStep (some addr) (some pk) r.1
        [Event.dbActivatePendingWallet pd.recipient_telegram_id]
  | _ => .okStep pd.recipient_wallet none store []

/-- `BotHandlers.execute_payment_secure(sender_telegram_id, payment_data)`:
decrypt the sender key, re-check the recipient balance, create the recipient
wallet if needed, submit the transfer, poll for confirmation, and — only on a
confirmed outcome — write ledger rows and the recipient notification.
The first three `match`es inline `get_decrypted_private_key`; a decryption
failure propagates to the outer `except` handler (`exceptionRaised`). -/
def execute_payment_secure (env : ExecEnv) (store : List UserRec)
    (sender_telegram_id : ℕ) (pd : PaymentData) (now : ℕ) :
    ExecResult × List UserRec × List Event :=
  match get_user store sender_telegram_id with
  | none => (.err .walletNotFound, store, [])
  | some sender_user =>
    match sender_user.encrypted_private_key with
    | none => (.err .walletNotFound, store, [])
    | some enc =>
      match decrypt_private_key env.master enc (KeyId.ofNat sender_telegram_id) with
      | none => (.err .exceptionRaised, store, [])
      | some _sender_private_key =>
        let sender_wallet := sender_user.wallet_address
        let sender_username := sender_user.username
        let rc := exec_balance_recheck env pd
        if rc.2 then (.err .recipientLowBalance, store, rc.1)
        else
          match exec_wallet_creation env store pd now with
          | .fail e => (.err e, store, rc.1)
          | .okStep recipient_wallet recipient_private_key store1 wevs =>
            let evs1 := rc.1 ++ wevs
            match env.transfer recipient_wallet pd.token pd.amount with
            | none =>
              (.err .transferFailed, store1,
                evs1 ++ [Event.netSubmit pd.token recipient_wallet pd.amount])
            | some signature =>
              let evs2 := evs1 ++ [Event.netSubmit pd.token recipient_wallet pd.amount]
              let pr := poll_confirmation (env.status signature) 30 0
              let evs3 := evs2 ++ pr.2
              match pr.1 with
              | .failedOnChain => (.err .onChainFailed, store1, evs3)
              | .timeout => (.err .confirmTimeout, store1, evs3)
              | .confirmed =>
                -- Step 5: ledger rows for the sender and (if known) recipient
                let tx_data : TxData :=
                  { signature := signature,
                    sender_username := sender_username,
                    sender_wallet := sender_wallet,
                    recipient_username := some pd.recipient_username,
                    recipient_wallet := recipient_wallet,
                    amount := pd.amount,
                    token := pd.token,
                    network_fee := pd.network_fee }
                let s2 := (save_payment_transaction store1 sender_telegram_id
                  tx_data true now).1
                let step5 :=
                  match opt_id pd.recipient_telegram_id with
                  | some rtid =>
                    ((save_payment_transaction s2 rtid tx_data false now).1,
                      [Event.dbSaveTx sender_telegram_id true,
                        Event.dbSaveTx rtid false])
                  | none => (s2, [Event.dbSaveTx sender_telegram_id true])
                -- Step 6: recipient notification
                let notification : Notif :=
                  { ntype := "payment_received",
                    amount := pd.amount,
                    token := pd.token,
                    sender_username := sender_username,
                    sender_wallet := sender_wallet,
                    signature := signature,
                    timestamp := now }
                match pd.recipient_status with
                | RecipientStatus.new_user =>
                  match recipient_private_key with
                  | none =>
                    -- encrypt_private_key(None, ...) raises; caught by the
                    -- outer except AFTER the ledger rows were written
                    (.err .exceptionRaised, step5.1, evs3 ++ step5.2)
                  | some rpk =>
                    let enc2 := encrypt_private_key env.master rpk
                      (KeyId.ofNat (username_hash pd.recipient_username))
                    let r := create_pending_user_by_username step5.1
                      pd.recipient_username recipient_wallet enc2 notification now
                    (.ok signature recipient_wallet recipient_private_key, r.1,
                      evs3 ++ step5.2 ++
                        [Event.dbCreatePendingUser pd.recipient_username])
                | RecipientStatus.pending_wallet =>
                  let r := add_pending_notification_by_username step5.1
                    pd.recipient_username notification
                  (.ok signature recipient_wallet recipient_private_key, r.1,
                    evs3 ++ step5.2 ++
                      [Event.dbAddNotificationByUsername pd.recipient_username])
                | _ =>
                  match opt_id pd.recipient_telegram_id with
                  | some rtid =>
                    let r := add_pending_notification step5.1 rtid notification
                    (.ok signature recipient_wallet recipient_private_key, r.1,
                      evs3 ++ step5.2 ++ [Event.dbAddNotification rtid])
                  | none =>
                    (.ok signature recipient_wallet recipient_private_key,
                      step5.1, evs3 ++ step5.2)

/-- One in-memory `pending_payments` entry. -/
structure PaymentInfo where
  telegram_id : ℕ
  payment_data : PaymentData
deriving DecidableEq, Repr

/-- `del pending_payments[payment_id]`. -/
def pp_erase : List (String × PaymentInfo) → String → List (String × PaymentInfo)
  | [], _ => []
  | (k, v) :: rest, pid =>
    if k = pid then pp_erase rest pid else (k, v) :: pp_erase rest pid

inductive HandlerAction
  | cancel
  | confirm
deriving DecidableEq, Repr

/-- What `payment_callback_handler` reports back to the chat. -/
inductive HandlerResp
  | expired
  | wrongUser
  | cancelled
  | paymentSent (signature : String)
  | paymentFailed (e : PayErr)
deriving DecidableEq, Repr

/-- `BotHandlers.payment_callback_handler`: look up the pending payment by id
(missing → "Payment expired"), check the caller owns it, handle cancel, or
execute; the entry is deleted after a cancel and after execution regardless of
outcome. -/
def payment_callback_handler (env : ExecEnv) (store : List UserRec)
    (pending_payments : List (String × PaymentInfo)) (caller_id : ℕ)
    (payment_id : String) (action : HandlerAction) (now : ℕ) :
    HandlerResp × List UserRec × List (String × PaymentInfo) × List Event :=
  match pending_payments.lookup payment_id with
  | none => (.expired, store, pending_payments, [])
  | some info =>
    if caller_id ≠ info.telegram_id then (.wrongUser, store, pending_payments, [])
    else
      match action with
      | .cancel => (.cancelled, store, pp_erase pending_payments payment_id, [])
      | .confirm =>
        let r := execute_payment_secure env store info.telegram_id
          info.payment_data now
        match r.1 with
        | .ok sig _ _ =>
          (.paymentSent sig, r.2.1, pp_erase pending_payments payment_id, r.2.2)
        | .err e =>
          (.paymentFailed e, r.2.1, pp_erase pending_payments payment_id, r.2.2)

/-- Sender document for the C1/C2 execution scenarios: user 7 with wallet
`SW` and a stored encrypted key. -/
def c1_sender : UserRec :=
  { telegram_id := some 7, username := some "sender7", wallet_address := some "SW",
    encrypted_private_key := some (encrypt_private_key "m" "SKEY" (KeyId.ofNat 7)),
    wallet_type := some "generated", wallet_created_at := some 1,
    last_updated := some 1, pending_wallet_address := none,
    pending_private_key := none, pending_notifications := [], transactions := [],
    total_payments_sent := 0, total_payments_received := 0 }

/-- Environment for the C1/C2 scenarios: wallet creation succeeds, the
transfer submits with signature `SIG1`, and the chain never reports more than
`pending` — so polling exhausts its 30 attempts and times out. -/
def c1_env : ExecEnv :=
  { master := "m", sol_balance := fun _ => 0,
    new_wallet := some ("NEWADDR", "NEWKEY"),
    transfer := fun _ _ _ => some "SIG1",
    status := fun _ _ => TxStatus.pending }

/-- Preview data of a 0.005 SOL payment to the brand-new handle `newbie`
(exactly what `_send_payment` produces for an unknown handle). -/
def c1_pd : PaymentData :=
  { recipient_username := "newbie", recipient_wallet := none,
    recipient_status := RecipientStatus.new_user, recipient_telegram_id := none,
    amount := 5000000, token := Token.SOL, network_fee := 895880,
    needs_wallet_creation := true, sender_username := some "sender7",
    sender_wallet := some "SW" }

/-- Pending-payments entry for the C2 witness. -/
def c2_info : PaymentInfo :=
  { telegram_id := 7, payment_data := c1_pd }

/-! ## Wallet import (`WalletManager.import_from_private_key`,
`services/wallet_manager.py`)

The `base58` package decoder and `bytes.fromhex` are modelled as executable
codecs over byte lists; `solders.keypair.Keypair.from_bytes` (which can
reject 64-byte inputs whose public-key half is not a valid curve point) is an
oracle parameter returning the public key or `none` for a raised exception.
`bytes.fromhex` is modelled per Python ≥ 3.11 (ASCII spaces ignored). -/

/-- The Bitcoin base58 alphabet used by the `base58` package. -/
def B58_ALPHABET : List Char :=
  "123456789ABCDEFGHJKLMNPQRSTUVWXYZabcdefghijkmnopqrstuvwxyz".data

def b58_index_aux : List Char → Char → ℕ → Option ℕ
  | [], _, _ => none
  | a :: rest, c, i => if a = c then some i else b58_index_aux rest c (i + 1)

def b58_index (c : Char) : Option ℕ :=
  b58_index_aux B58_ALPHABET c 0

/-- Minimal big-endian base-256 digits of `n` (fuel-bounded for structural
recursion; any fuel at least the digit count gives the exact digits). -/
def nat_to_bytes_be : ℕ → ℕ → List ℕ
  | 0, _ => []
  | fuel + 1, n => if n = 0 then [] else nat_to_bytes_be fuel (n / 256) ++ [n % 256]

/-- `base58.b58decode`: reject any character outside the alphabet, read the
string as a base-58 integer, convert to bytes, and prepend one zero byte per
leading `1`. -/
def b58decode (s : String) : Option (List ℕ) :=
  let cs := s.data
  if cs.all (fun c => (b58_index c).isSome) then
    let value := cs.foldl (fun acc c => acc * 58 + ((b58_index c).getD 0)) 0
    let zeros := (cs.takeWhile (fun c => c = '1')).length
    some (List.replicate zeros 0 ++ nat_to_bytes_be cs.length value)
  else none

def hex_val (c : Char) : Option ℕ :=
  if '0' ≤ c ∧ c ≤ '9' then some (c.toNat - 48)
  else if 'a' ≤ c ∧ c ≤ 'f' then some (c.toNat - 87)
  else if 'A' ≤ c ∧ c ≤ 'F' then some (c.toNat - 55)
  else none

def fromhex_pairs : List Char → Option (List ℕ)
  | [] => some []
  | c1 :: c2 :: rest =>
    match hex_val c1, hex_val c2, fromhex_pairs rest with
    | some h1, some h2, some bs => some ((h1 * 16 + h2) :: bs)
    | _, _, _ => none
  | _ => none

/-- `bytes.fromhex`: an even number of hex digits, spaces ignored. -/
def fromhex (s : String) : Option (List ℕ) :=
  fromhex_pairs (s.data.filter (fun c => ¬ c = ' '))

/-- Python `str.strip()` whitespace. -/
def is_py_space (c : Char) : Bool :=
  c == ' ' || c == '\t' || c == '\n' || c == '\r' || c == '\x0b' || c == '\x0c'

def py_strip (s : String) : String :=
  String.mk (((s.data.dropWhile is_py_space).reverse.dropWhile is_py_space).reverse)

def b58_char (n : ℕ) : Char :=
  B58_ALPHABET.getD n '1'

def nat_to_b58 : ℕ → ℕ → List Char
  | 0, _ => []
  | fuel + 1, n => if n = 0 then [] else nat_to_b58 fuel (n / 58) ++ [b58_char (n % 58)]

/-- `base58.b58encode` (as a string). -/
def b58encode (bs : List ℕ) : String :=
  let zeros := (bs.takeWhile (fun b => b = 0)).length
  let value := bs.foldl (fun acc b => acc * 256 + b) 0
  String.mk (List.replicate zeros '1' ++ nat_to_b58 (bs.length * 2) value)

/-- The result dict of `import_from_private_key`. -/
structure ImportResult where
  success : Bool
  address : Option String
  private_key : Option String
  error : Option String
deriving DecidableEq, Repr

/-- The tail of `import_from_private_key` after a successful decode: length
check, keypair reconstruction (oracle), and the returned key string (the
input if longer than 64 characters, else its base58 encoding). -/
def import_check (from_bytes : List ℕ → Option String) (pk : String)
    (decoded : List ℕ) : ImportResult :=
  if decoded.length ≠ 64 then
    ⟨false, none, none, some "Invalid private key length"⟩
  else
    match from_bytes decoded with
    | none => ⟨false, none, none, some "Import failed"⟩
    | some public_key =>
      ⟨true, some public_key,
        some (if pk.data.length > 64 then pk else b58encode decoded), none⟩

/-- `WalletManager.import_from_private_key(private_key)`: strip the input, try
base58, fall back to hex only if base58 raises, and validate the byte length.
Total by construction — every branch, including a raising
`Keypair.from_bytes` (outer `except`), returns a result dict. -/
def import_from_private_key (from_bytes : List ℕ → Option String)
    (private_key : String) : ImportResult :=
  let pk := py_strip private_key
  match b58decode pk with
  | some decoded => import_check from_bytes pk decoded
  | none =>
    match fromhex pk with
    | some decoded => import_check from_bytes pk decoded
    | none => ⟨false, none, none, some "Invalid private key format"⟩

/-- Does the (stripped) string decode — as base58, or failing that as hex —
to exactly 64 bytes? -/
def decodes_to_64 (s : String) : Bool :=
  match b58decode s with
  | some decoded => decoded.length == 64
  | none =>
    match fromhex s with
    | some decoded => decoded.length == 64
    | none => false

/-- C5: For every (private key, identity id) pair, decrypting the encryption of
the key under the id-derived cipher with the same id returns the original key;
and decrypting with any distinct id fails (never returns the original key).
(Under the ideal-crypto model described above.) -/
theorem decrypt_encrypt_roundtrip (master private_key : String) (id1 id2 : ℕ)
    (h : id1 ≠ id2) :
    decrypt_private_key master
        (encrypt_private_key master private_key (KeyId.ofNat id1)) (KeyId.ofNat id1)
      = some private_key ∧
    decrypt_private_key master
        (encrypt_private_key master private_key (KeyId.ofNat id1)) (KeyId.ofNat id2)
      = none := by
  constructor
  · simp [decrypt_private_key, encrypt_private_key, derive_key_from_telegram_id]
  · simp [decrypt_private_key, encrypt_private_key, derive_key_from_telegram_id, h]

/-- Witness for C5 at master `"m"`, key `"k"`, ids 1 and 2. -/
theorem decrypt_encrypt_roundtrip_witness :
    decrypt_private_key "m"
        (encrypt_private_key "m" "k" (KeyId.ofNat 1)) (KeyId.ofNat 1) = some "k" ∧
    decrypt_private_key "m"
        (encrypt_private_key "m" "k" (KeyId.ofNat 1)) (KeyId.ofNat 2) = none :=
  decrypt_encrypt_roundtrip "m" "k" 1 2 (by decide)

/-- C6: the pre-transfer balance check succeeds exactly when: for the native
asset, the sender's SOL balance is at least `amount + fee`; for a non-native
token, the token balance is at least `amount` and separately the SOL balance
is at least `fee`.  Otherwise it returns an insufficient-funds error. -/
theorem check_payment_balance_iff (getBalances : String → Balances)
    (store : List UserRec) (telegram_id : ℕ) (amount network_fee : ℤ)
    (token : Token) (u : UserRec) (addr : String)
    (h1 : get_user store telegram_id = some u)
    (h2 : opt_str u.wallet_address = some addr) :
    ((check_payment_balance getBalances store telegram_id amount Token.SOL
        network_fee).success = true ↔
      amount + network_fee ≤ (getBalances addr).sol) ∧
    (token ≠ Token.SOL →
      ((check_payment_balance getBalances store telegram_id amount token
          network_fee).success = true ↔
        amount ≤ (getBalances addr).get token ∧
          network_fee ≤ (getBalances addr).sol)) ∧
    (∀ t, (check_payment_balance getBalances store telegram_id amount t
        network_fee).success = false →
      (check_payment_balance getBalances store telegram_id amount t
        network_fee).error.isSome) := by
  refine ⟨?_, ?_, ?_⟩
  · have e : check_payment_balance getBalances store telegram_id amount Token.SOL
        network_fee =
        if (getBalances addr).sol < amount + network_fee then
          ⟨false, some "Insufficient balance"⟩
        else ⟨true, none⟩ := by
      simp [check_payment_balance, h1, h2]
    rw [e]
    split_ifs with h
    · simp [not_le.mpr h]
    · simp [not_lt.mp h]
  · intro htok
    have e : check_payment_balance getBalances store telegram_id amount token
        network_fee =
        if (getBalances addr).get token < amount then
          ⟨false, some "Insufficient token"⟩
        else if (getBalances addr).sol < network_fee then
          ⟨false, some "Insufficient SOL for gas"⟩
        else ⟨true, none⟩ := by
      simp [check_payment_balance, h1, h2, htok]
    rw [e]
    split_ifs with ha hb
    · simp only [Bool.false_eq_true, false_iff]
      intro hc
      exact absurd hc.1 (not_le.mpr ha)
    · simp only [Bool.false_eq_true, false_iff]
      intro hc
      exact absurd hc.2 (not_le.mpr hb)
    · simpa using ⟨not_lt.mp ha, not_lt.mp hb⟩
  · intro t
    simp only [check_payment_balance, h1, h2]
    split_ifs <;> simp

/-- Witness for C6: a concrete store and oracle. -/
theorem check_payment_balance_iff_witness :
    ((check_payment_balance c6_oracle [c6_user] 7 1000000000 Token.SOL 5000).success = true ↔
      1000000000 + 5000 ≤ (c6_oracle "W").sol) ∧
    (Token.USDC ≠ Token.SOL →
      ((check_payment_balance c6_oracle [c6_user] 7 1000000000 Token.USDC 5000).success = true ↔
        1000000000 ≤ (c6_oracle "W").get Token.USDC ∧ 5000 ≤ (c6_oracle "W").sol)) ∧
    (∀ t, (check_payment_balance c6_oracle [c6_user] 7 1000000000 t 5000).success = false →
      (check_payment_balance c6_oracle [c6_user] 7 1000000000 t 5000).error.isSome) :=
  check_payment_balance_iff c6_oracle [c6_user] 7 1000000000 5000 Token.USDC c6_user "W"
    (by decide) (by decide)

/-! ## C3: `save_wallet` semantics -/

/-- Generic behavior of `update_one` against `find_one` for a
filter-preserving update. -/
theorem update_first_spec (p : UserRec → Prop) [DecidablePred p]
    (f : UserRec → UserRec) (hpf : ∀ u, p u → p (f u)) (l : List UserRec) :
    (find_first p l = none → update_first p f l = (l, false)) ∧
    (∀ u, find_first p l = some u →
      (update_first p f l).2 = true ∧
      find_first p (update_first p f l).1 = some (f u)) := by
  induction l with
  | nil => simp [find_first, update_first]
  | cons a rest ih =>
    by_cases h : p a
    · refine ⟨?_, ?_⟩
      · intro hn
        simp [find_first, h] at hn
      · intro u hu
        simp only [find_first, h, if_true] at hu
        cases hu
        refine ⟨by simp [update_first, h], ?_⟩
        simp [update_first, find_first, h, hpf a h]
    · refine ⟨?_, ?_⟩
      · intro hn
        simp only [find_first, h, if_false] at hn
        simp [update_first, h, ih.1 hn]
      · intro u hu
        simp only [find_first, h, if_false] at hu
        have := ih.2 u hu
        simp [update_first, find_first, h, this.1, this.2]

/-- C3 (amended): `save_wallet` never rejects.  If a user document matches the
id it unconditionally overwrites the wallet fields (address, ciphertext, type
and timestamps) with the supplied values and returns `True` — for identical
and for different addresses alike; it returns `False`, leaving the store
unchanged, exactly when no document matches. -/
theorem save_wallet_overwrites (master : String) (store : List UserRec)
    (telegram_id : ℕ) (addr pk wt : String) (now : ℕ) :
    (get_user store telegram_id = none →
      save_wallet master store telegram_id addr pk wt now = (store, false)) ∧
    (∀ u, get_user store telegram_id = some u →
      (save_wallet master store telegram_id addr pk wt now).2 = true ∧
      get_user (save_wallet master store telegram_id addr pk wt now).1 telegram_id =
        some { u with
          wallet_address := some addr,
          encrypted_private_key :=
            some (encrypt_private_key master pk (KeyId.ofNat telegram_id)),
          wallet_type := some wt,
          wallet_created_at := some now,
          last_updated := some now }) := by
  have h := update_first_spec (fun u => u.telegram_id = some telegram_id)
    (fun u => { u with
      wallet_address := some addr,
      encrypted_private_key :=
        some (encrypt_private_key master pk (KeyId.ofNat telegram_id)),
      wallet_type := some wt,
      wallet_created_at := some now,
      last_updated := some now })
    (fun u hu => hu) store
  exact ⟨fun hn => h.1 hn, fun u hu => h.2 u hu⟩

/-- Witness for C3 (amended): one-user store, overwritten with a different
address. -/
theorem save_wallet_overwrites_witness :
    (save_wallet "m"
      [{ telegram_id := some 1, username := some "bob", wallet_address := some "ADDR_A",
         encrypted_private_key := some (encrypt_private_key "m" "KEY_A" (KeyId.ofNat 1)),
         wallet_type := some "generated", wallet_created_at := some 10,
         last_updated := some 10, pending_wallet_address := none,
         pending_private_key := none, pending_notifications := [], transactions := [],
         total_payments_sent := 0, total_payments_received := 0 }]
      1 "ADDR_B" "KEY_B" "imported" 20).2 = true ∧
    get_user (save_wallet "m"
      [{ telegram_id := some 1, username := some "bob", wallet_address := some "ADDR_A",
         encrypted_private_key := some (encrypt_private_key "m" "KEY_A" (KeyId.ofNat 1)),
         wallet_type := some "generated", wallet_created_at := some 10,
         last_updated := some 10, pending_wallet_address := none,
         pending_private_key := none, pending_notifications := [], transactions := [],
         total_payments_sent := 0, total_payments_received := 0 }]
      1 "ADDR_B" "KEY_B" "imported" 20).1 1 =
      some { telegram_id := some 1, username := some "bob",
             wallet_address := some "ADDR_B",
             encrypted_private_key := some (encrypt_private_key "m" "KEY_B" (KeyId.ofNat 1)),
             wallet_type := some "imported", wallet_created_at := some 20,
             last_updated := some 20, pending_wallet_address := none,
             pending_private_key := none, pending_notifications := [], transactions := [],
             total_payments_sent := 0, total_payments_received := 0 } :=
  (save_wallet_overwrites "m" _ 1 "ADDR_B" "KEY_B" "imported" 20).2
    { telegram_id := some 1, username := some "bob", wallet_address := some "ADDR_A",
      encrypted_private_key := some (encrypt_private_key "m" "KEY_A" (KeyId.ofNat 1)),
      wallet_type := some "generated", wallet_created_at := some 10,
      last_updated := some 10, pending_wallet_address := none,
      pending_private_key := none, pending_notifications := [], transactions := [],
      total_payments_sent := 0, total_payments_received := 0 }
    (by decide)

/-- C3 counterexample: for a user who already has wallet `ADDR_A`,
(a) calling `save_wallet` with a *different* address `ADDR_B` is not rejected —
it returns `True` and the stored address becomes `ADDR_B`; and (b) calling it
again with the *identical* address and key material is not a no-op — the
stored record changes (`wallet_created_at` / `last_updated` are refreshed). -/
theorem save_wallet_claim_counterexample :
    ((save_wallet "m" [c3_user] 1 "ADDR_B" "KEY_B" "imported" 20).2 = true ∧
      ((save_wallet "m" [c3_user] 1 "ADDR_B" "KEY_B" "imported" 20).1.map
        (fun u => u.wallet_address)) = [some "ADDR_B"]) ∧
    (save_wallet "m" [c3_user] 1 "ADDR_A" "KEY_A" "generated" 20).1 ≠ [c3_user] := by
  decide

/-- C4 failing input: two callers (ids 100 and 200) race to claim handle
`alice`; both execute the read phase against the same store, then both execute
the write phase.  Because the source never checks the result of its
conditional `update_one`, BOTH calls return `success = True` and both receive
the plaintext private key; the second caller's conditional update matches
nothing (the store is left exactly as the first caller wrote it), yet the
loser is still handed the key.  This contradicts the claim that at most one
concurrent claim returns success. -/
theorem claim_race_both_succeed :
    claim_read [c4_pending] "alice" = some c4_pending ∧
    ((claim_commit "m" [c4_pending] 100 "alice" c4_pending 6).2.success = true ∧
     (claim_commit "m"
        (claim_commit "m" [c4_pending] 100 "alice" c4_pending 6).1
        200 "alice" c4_pending 7).2.success = true ∧
     (claim_commit "m"
        (claim_commit "m" [c4_pending] 100 "alice" c4_pending 6).1
        200 "alice" c4_pending 7).2.private_key = some "PSECRET" ∧
     (claim_commit "m"
        (claim_commit "m" [c4_pending] 100 "alice" c4_pending 6).1
        200 "alice" c4_pending 7).1 =
       (claim_commit "m" [c4_pending] 100 "alice" c4_pending 6).1) := by
  decide

/-- If `opt_str` produced a string, that string is itself truthy. -/
theorem opt_str_idem {o : Option String} {s : String} (h : opt_str o = some s) :
    opt_str (some s) = some s := by
  cases o with
  | none => simp [opt_str] at h
  | some t =>
    by_cases he : t.data.isEmpty
    · simp [opt_str, he] at h
    · simp only [opt_str, he, if_false] at h
      cases h
      simp [opt_str, he]

/-- C8: a native-asset payment below `MINIMUM_SOL_TRANSFER_NEW_USER` to a
brand-new handle (no stored document of any kind) is rejected at Step 7 with
the minimum-transfer (insufficient-funds) error, with an empty trace: no
network call was made.  `send_payment` has no store-write path at all
(it returns no store), so no state mutation occurs either. -/
theorem below_floor_new_user_rejected_pre_network (sol_oracle : String → ℤ)
    (balances_oracle : String → Balances) (store : List UserRec) (telegram_id : ℕ)
    (recipient_username : String) (amount : ℤ) (sender : UserRec)
    (sender_wallet : String)
    (h0 : 0 < amount)
    (h1 : get_user store telegram_id = some sender)
    (h2 : opt_str sender.wallet_address = some sender_wallet)
    (h3 : get_user_by_username store recipient_username = none)
    (h4 : amount < MINIMUM_SOL_TRANSFER_NEW_USER) :
    send_payment sol_oracle balances_oracle store telegram_id recipient_username
      amount Token.SOL = (.err .minimumTransferNewUser, []) := by
  have h0' : ¬ amount ≤ 0 := not_le.mpr h0
  simp [send_payment, h0', h1, h2, h3, classify_recipient, h4]

/-- Witness for C8: user 7 paying 0.0005 SOL to the unknown handle `newbie`. -/
theorem below_floor_new_user_rejected_pre_network_witness :
    send_payment (fun _ => 0) (fun _ => ⟨0, 0, 0⟩) [c6_user] 7 "newbie" 500000
      Token.SOL = (.err .minimumTransferNewUser, []) :=
  below_floor_new_user_rejected_pre_network (fun _ => 0) (fun _ => ⟨0, 0, 0⟩)
    [c6_user] 7 "newbie" 500000 c6_user "W"
    (by decide) (by decide) (by decide) (by decide) (by decide)

/-- C7 counterexample.  Recipient `carol` is active-with-wallet and her live
balance (oracle `fun _ => 0`) is below the rent-exemption threshold; the
amount `0.0001` is below the new-account floor.  (a) A USDC payment — a
supported asset — is NOT rejected: the preview succeeds and its trace shows no
live-balance re-check (the only network call is the sender balance read);
(b) the SOL rejection the claim describes is not made with zero network
calls: its trace contains the live-balance network read itself. -/
theorem active_recheck_claim_counterexample :
    ((send_payment (fun _ => 0) (fun _ => ⟨10000000000, 10000000000, 10000000000⟩) c7_store 7 "carol"
        100000 Token.USDC).1.isOk = true ∧
      (send_payment (fun _ => 0) (fun _ => ⟨10000000000, 10000000000, 10000000000⟩) c7_store 7 "carol"
        100000 Token.USDC).2 = [VEvent.getBalances "SW"]) ∧
    send_payment (fun _ => 0) (fun _ => ⟨10000000000, 10000000000, 10000000000⟩) c7_store 7 "carol"
        100000 Token.SOL
      = (.err .recipientLowBalance, [VEvent.getSolBalance "RW"]) := by
  decide

/-- C7 (amended): only for *native-asset* payments to an active-with-wallet
recipient is the live on-chain balance re-checked; when that live balance is
below the rent-exemption threshold and the amount is below the new-account
floor, the payment is rejected at validation with the remediation message,
the only network call being the live-balance read itself (in particular no
transfer submission and no further network call; `send_payment` performs no
state mutation).  For non-native tokens no live re-check happens: the trace
holds exactly the sender balance read. -/
theorem active_recipient_live_recheck (sol_oracle : String → ℤ)
    (balances_oracle : String → Balances) (store : List UserRec) (telegram_id : ℕ)
    (recipient_username : String) (amount : ℤ) (sender rec : UserRec)
    (sender_wallet rw : String) (rtid : ℕ)
    (h0 : 0 < amount)
    (h1 : get_user store telegram_id = some sender)
    (h2 : opt_str sender.wallet_address = some sender_wallet)
    (h3 : get_user_by_username store recipient_username = some rec)
    (h4 : opt_id rec.telegram_id = some rtid)
    (h5 : opt_str rec.wallet_address = some rw)
    (h6 : sol_oracle rw < RENT_EXEMPTION_FEE)
    (h7 : amount < MINIMUM_SOL_TRANSFER_NEW_USER) :
    send_payment sol_oracle balances_oracle store telegram_id recipient_username
        amount Token.SOL
      = (.err .recipientLowBalance, [VEvent.getSolBalance rw]) ∧
    ∀ t, t ≠ Token.SOL →
      (send_payment sol_oracle balances_oracle store telegram_id recipient_username
        amount t).2 = [VEvent.getBalances sender_wallet] := by
  have h0' : ¬ amount ≤ 0 := not_le.mpr h0
  have hrw := opt_str_idem h5
  constructor
  · simp [send_payment, h0', h1, h2, h3, classify_recipient, h4, h5,
      live_balance_recheck, hrw, h6, h7]
  · intro t ht
    simp only [send_payment, h0', if_false, h1, h2, h3, classify_recipient, h4, h5]
    simp only [live_balance_recheck, hrw, ht, and_false, if_false]
    cases hbc : (check_payment_balance balances_oracle store telegram_id amount t
        (estimate_network_fee false t)).success <;>
      simp [ht, hbc]

/-- Witness for C7 (amended): the concrete C7 scenario, non-native conjunct
instantiated at USDC. -/
theorem active_recipient_live_recheck_witness :
    send_payment (fun _ => 0) (fun _ => ⟨10000000000, 10000000000, 10000000000⟩) c7_store 7 "carol"
        100000 Token.SOL
      = (.err .recipientLowBalance, [VEvent.getSolBalance "RW"]) ∧
    (send_payment (fun _ => 0) (fun _ => ⟨10000000000, 10000000000, 10000000000⟩) c7_store 7 "carol"
      100000 Token.USDC).2 = [VEvent.getBalances "SW"] :=
  ⟨(active_recipient_live_recheck (fun _ => 0) (fun _ => ⟨10000000000, 10000000000, 10000000000⟩) c7_store 7
      "carol" 100000 c7_sender c7_recipient "SW" "RW" 8
      (by decide) (by decide) (by decide) (by decide) (by decide) (by decide)
      (by decide) (by decide)).1,
    (active_recipient_live_recheck (fun _ => 0) (fun _ => ⟨10000000000, 10000000000, 10000000000⟩) c7_store 7
      "carol" 100000 c7_sender c7_recipient "SW" "RW" 8
      (by decide) (by decide) (by decide) (by decide) (by decide) (by decide)
      (by decide) (by decide)).2 Token.USDC (by decide)⟩

/-- Polling emits only `netPoll` events (never a store write). -/
theorem poll_events_no_writes (status : ℕ → TxStatus) :
    ∀ fuel attempt, ∀ e ∈ (poll_confirmation status fuel attempt).2,
      e.isLedgerWrite = false ∧ e.isNotifWrite = false := by
  intro fuel
  induction fuel with
  | zero =>
    intro attempt e he
    simp [poll_confirmation] at he
  | succ n ih =>
    intro attempt e he
    simp only [poll_confirmation] at he
    cases hst : status attempt <;> rw [hst] at he
    · simp only [List.mem_cons] at he
      rcases he with he | he
      · subst he; exact ⟨rfl, rfl⟩
      · exact ih (attempt + 1) e he
    · simp only [List.mem_singleton] at he
      subst he; exact ⟨rfl, rfl⟩
    · simp only [List.mem_singleton] at he
      subst he; exact ⟨rfl, rfl⟩

/-- A confirmed poll outcome means a `netPoll _ confirmed` event is in the
poll trace. -/
theorem poll_confirmed_mem (status : ℕ → TxStatus) :
    ∀ fuel attempt,
      (poll_confirmation status fuel attempt).1 = PollOutcome.confirmed →
      ∃ k, Event.netPoll k TxStatus.confirmed
        ∈ (poll_confirmation status fuel attempt).2 := by
  intro fuel
  induction fuel with
  | zero =>
    intro attempt h
    simp [poll_confirmation] at h
  | succ n ih =>
    intro attempt h
    simp only [poll_confirmation] at h ⊢
    split at h
    · exact ⟨attempt, by simp⟩
    · simp at h
    · obtain ⟨k, hk⟩ := ih (attempt + 1) h
      exact ⟨k, List.mem_cons_of_mem _ hk⟩

/-- The Step-2 live re-check emits only the balance network read. -/
theorem recheck_events_no_writes (env : ExecEnv) (pd : PaymentData) :
    ∀ e ∈ (exec_balance_recheck env pd).1,
      e.isLedgerWrite = false ∧ e.isNotifWrite = false := by
  intro e he
  simp only [exec_balance_recheck] at he
  split at he
  · split at he
    · split at he <;> (simp only [List.mem_singleton] at he; subst he; exact ⟨rfl, rfl⟩)
    · simp at he
  · simp at he

/-- The wallet-creation step emits no ledger or notification write (its only
store write is `activate_pending_wallet`). -/
theorem wallet_creation_events_no_writes (env : ExecEnv) (store : List UserRec)
    (pd : PaymentData) (now : ℕ) (rw : Option String) (rpk : Option String)
    (store1 : List UserRec) (evs : List Event)
    (h : exec_wallet_creation env store pd now = .okStep rw rpk store1 evs) :
    ∀ e ∈ evs, e.isLedgerWrite = false ∧ e.isNotifWrite = false := by
  intro e he
  simp only [exec_wallet_creation] at h
  split at h
  · split at h
    · exact absurd h (by simp)
    · cases h; simp at he
  · split at h
    · exact absurd h (by simp)
    · cases h
      simp only [List.mem_singleton] at he
      subst he; exact ⟨rfl, rfl⟩
  · cases h; simp at he

/-- From a write-free trace, any claimed write yields anything. -/
theorem writes_absent {evs : List Event} {P : Prop}
    (h : ∀ e ∈ evs, e.isLedgerWrite = false ∧ e.isNotifWrite = false) :
    ∀ e ∈ evs, e.isLedgerWrite = true ∨ e.isNotifWrite = true → P := by
  intro e he hor
  rcases h e he with ⟨h1, h2⟩
  rcases hor with h3 | h3
  · rw [h1] at h3; cases h3
  · rw [h2] at h3; cases h3

theorem no_writes_append {l1 l2 : List Event}
    (h1 : ∀ e ∈ l1, e.isLedgerWrite = false ∧ e.isNotifWrite = false)
    (h2 : ∀ e ∈ l2, e.isLedgerWrite = false ∧ e.isNotifWrite = false) :
    ∀ e ∈ l1 ++ l2, e.isLedgerWrite = false ∧ e.isNotifWrite = false := by
  intro e he
  rcases List.mem_append.mp he with h | h
  · exact h1 e h
  · exact h2 e h

theorem no_writes_submit (t : Token) (r : Option String) (a : ℤ) :
    ∀ e ∈ [Event.netSubmit t r a],
      e.isLedgerWrite = false ∧ e.isNotifWrite = false := by
  intro e he
  simp only [List.mem_singleton] at he
  subst he
  exact ⟨rfl, rfl⟩

/-- The wallet-creation step fails only with the wallet-creation error. -/
theorem wallet_creation_fail_eq {env : ExecEnv} {store : List UserRec}
    {pd : PaymentData} {now : ℕ} {e : PayErr}
    (h : exec_wallet_creation env store pd now = .fail e) :
    e = PayErr.walletCreationFailed := by
  simp only [exec_wallet_creation] at h
  split at h
  · split at h
    · injection h with h'; exact h'.symm
    · exact absurd h (by simp)
  · split at h
    · injection h with h'; exact h'.symm
    · exact absurd h (by simp)
  · exact absurd h (by simp)

/-- Master lemma for C2 over `execute_payment_secure`: (1) any ledger or
notification write in the trace implies a confirmed poll was observed in the
trace; (2) when the result is the on-chain-failure or the timeout error, the
trace contains no ledger row and no notification write. -/
theorem exec_writes_only_confirmed (env : ExecEnv) (store : List UserRec)
    (tid : ℕ) (pd : PaymentData) (now : ℕ) :
    (∀ e ∈ (execute_payment_secure env store tid pd now).2.2,
        e.isLedgerWrite = true ∨ e.isNotifWrite = true →
        ∃ k, Event.netPoll k TxStatus.confirmed
          ∈ (execute_payment_secure env store tid pd now).2.2) ∧
    (∀ e', (execute_payment_secure env store tid pd now).1 = ExecResult.err e' →
      e' = PayErr.onChainFailed ∨ e' = PayErr.confirmTimeout →
      ∀ e ∈ (execute_payment_secure env store tid pd now).2.2,
        e.isLedgerWrite = false ∧ e.isNotifWrite = false) := by
  simp only [execute_payment_secure]
  split
  · exact ⟨by simp, by simp⟩
  · split
    · exact ⟨by simp, by simp⟩
    · split
      · exact ⟨by simp, by simp⟩
      · split
        · -- Step-2 rejection: trace is the re-check read only
          refine ⟨writes_absent (recheck_events_no_writes env pd), ?_⟩
          intro e' heq hor
          rcases hor with h | h <;> (subst h; exact absurd heq (by simp))
        · split
          next e heq =>
            -- wallet creation failed
            refine ⟨writes_absent (recheck_events_no_writes env pd), ?_⟩
            intro e' heq2 hor
            have he := wallet_creation_fail_eq heq
            subst he
            rcases hor with h | h <;> (subst h; exact absurd heq2 (by simp))
          next rwx rpk store1 wevs heq =>
            have hwc := wallet_creation_events_no_writes env store pd now rwx rpk
              store1 wevs heq
            split
            · -- transfer rejected before submission
              have hall := no_writes_append
                (no_writes_append (recheck_events_no_writes env pd) hwc)
                (no_writes_submit pd.token rwx pd.amount)
              refine ⟨writes_absent hall, ?_⟩
              intro e' heq2 hor
              rcases hor with h | h <;> (subst h; exact absurd heq2 (by simp))
            next signature heq3 =>
              split
              next hst =>
                -- failed on chain
                have hall := no_writes_append (no_writes_append
                  (no_writes_append (recheck_events_no_writes env pd) hwc)
                  (no_writes_submit pd.token rwx pd.amount))
                  (poll_events_no_writes (env.status signature) 30 0)
                exact ⟨writes_absent hall, fun e' _ _ => hall⟩
              next hst =>
                -- confirmation timeout
                have hall := no_writes_append (no_writes_append
                  (no_writes_append (recheck_events_no_writes env pd) hwc)
                  (no_writes_submit pd.token rwx pd.amount))
                  (poll_events_no_writes (env.status signature) 30 0)
                exact ⟨writes_absent hall, fun e' _ _ => hall⟩
              next hst =>
                -- confirmed: every leaf's trace extends the poll trace
                obtain ⟨k, hk⟩ := poll_confirmed_mem (env.status signature) 30 0 hst
                split
                · split
                  · exact ⟨fun e _ _ => ⟨k, by simp [List.mem_append, hk]⟩,
                      by intro e' heq2 hor;
                         rcases hor with h | h <;> (subst h; exact absurd heq2 (by simp))⟩
                  · exact ⟨fun e _ _ => ⟨k, by simp [List.mem_append, hk]⟩,
                      by intro e' heq2 _; exact absurd heq2 (by simp)⟩
                · exact ⟨fun e _ _ => ⟨k, by simp [List.mem_append, hk]⟩,
                    by intro e' heq2 _; exact absurd heq2 (by simp)⟩
                · split
                  · exact ⟨fun e _ _ => ⟨k, by simp [List.mem_append, hk]⟩,
                      by intro e' heq2 _; exact absurd heq2 (by simp)⟩
                  · exact ⟨fun e _ _ => ⟨k, by simp [List.mem_append, hk]⟩,
                      by intro e' heq2 _; exact absurd heq2 (by simp)⟩

/-- A deleted pending payment can no longer be looked up. -/
theorem pp_erase_lookup (l : List (String × PaymentInfo)) (pid : String) :
    (pp_erase l pid).lookup pid = none := by
  induction l with
  | nil => rfl
  | cons a rest ih =>
    obtain ⟨k, v⟩ := a
    by_cases h : k = pid
    · simp [pp_erase, h, ih]
    · have h2 : (pid == k) = false := by
        simp only [beq_eq_false_iff_ne, ne_eq]
        exact fun hh => h hh.symm
      simp [pp_erase, h, List.lookup, h2, ih]

/-- After a confirm invocation by the owner, the pending-payments entry is
gone regardless of the execution outcome. -/
theorem handler_consumes_entry (env : ExecEnv) (store : List UserRec)
    (pending_payments : List (String × PaymentInfo)) (caller_id : ℕ)
    (payment_id : String) (info : PaymentInfo) (now : ℕ)
    (hl : pending_payments.lookup payment_id = some info)
    (hc : caller_id = info.telegram_id) :
    (payment_callback_handler env store pending_payments caller_id payment_id
      HandlerAction.confirm now).2.2.1 = pp_erase pending_payments payment_id := by
  simp only [payment_callback_handler, hl, hc]
  cases hres :
      (execute_payment_secure env store info.telegram_id info.payment_data now).1 <;>
    simp [hres]

/-- C1 failing input: a payment to a brand-new handle whose transfer is
submitted and then times out.  The trace contains the network submission, but
NO wallet-persist store write ever occurs (neither before the submission nor
after), and the store is completely unchanged — the freshly generated wallet,
with the only copy of its private key, was never committed although the
transfer was submitted.  This contradicts the claim (and §4.5 of the spec)
that the wallet record commits before any transfer is submitted; the
registered-without-wallet path, by contrast, does persist via
`activate_pending_wallet` before submission. -/
theorem wallet_commit_before_submit_violated :
    (execute_payment_secure c1_env [c1_sender] 7 c1_pd 100).1
      = ExecResult.err PayErr.confirmTimeout ∧
    ((execute_payment_secure c1_env [c1_sender] 7 c1_pd 100).2.2.contains
      (Event.netSubmit Token.SOL (some "NEWADDR") 5000000)) = true ∧
    ((execute_payment_secure c1_env [c1_sender] 7 c1_pd 100).2.2.all
      (fun e => !e.isWalletPersist)) = true ∧
    (execute_payment_secure c1_env [c1_sender] 7 c1_pd 100).2.1 = [c1_sender] := by
  decide

/-- C2: ledger rows and recipient notifications are written only when the
poll observed a confirmed status; when execution ends in on-chain failure or
confirmation timeout the outcome is non-success and no ledger row or
notification was written; and after the handler runs a payment id (whatever
the outcome), the pending entry is deleted, so re-submitting the same id is
rejected as expired. -/
theorem settlement_only_after_confirmation (env : ExecEnv) (store : List UserRec)
    (pending_payments : List (String × PaymentInfo)) (caller_id : ℕ)
    (payment_id : String) (info : PaymentInfo) (now now2 : ℕ)
    (hl : pending_payments.lookup payment_id = some info)
    (hc : caller_id = info.telegram_id) :
    (∀ e ∈ (execute_payment_secure env store info.telegram_id
        info.payment_data now).2.2,
      e.isLedgerWrite = true ∨ e.isNotifWrite = true →
      ∃ k, Event.netPoll k TxStatus.confirmed
        ∈ (execute_payment_secure env store info.telegram_id
            info.payment_data now).2.2) ∧
    (∀ e', (execute_payment_secure env store info.telegram_id
          info.payment_data now).1 = ExecResult.err e' →
      e' = PayErr.onChainFailed ∨ e' = PayErr.confirmTimeout →
      (execute_payment_secure env store info.telegram_id
          info.payment_data now).1.isOk = false ∧
      ∀ e ∈ (execute_payment_secure env store info.telegram_id
          info.payment_data now).2.2,
        e.isLedgerWrite = false ∧ e.isNotifWrite = false) ∧
    ((payment_callback_handler env store pending_payments caller_id payment_id
        HandlerAction.confirm now).2.2.1.lookup payment_id = none ∧
      (payment_callback_handler env
        (payment_callback_handler env store pending_payments caller_id payment_id
          HandlerAction.confirm now).2.1
        (payment_callback_handler env store pending_payments caller_id payment_id
          HandlerAction.confirm now).2.2.1
        caller_id payment_id HandlerAction.confirm now2).1 = HandlerResp.expired) := by
  obtain ⟨ha, hb⟩ := exec_writes_only_confirmed env store info.telegram_id
    info.payment_data now
  refine ⟨ha, ?_, ?_⟩
  · intro e' h1 h2
    refine ⟨?_, hb e' h1 h2⟩
    rw [h1]
    rfl
  · have hmap := handler_consumes_entry env store pending_payments caller_id
      payment_id info now hl hc
    refine ⟨?_, ?_⟩
    · rw [hmap]
      exact pp_erase_lookup _ _
    · rw [hmap]
      simp [payment_callback_handler, pp_erase_lookup]

/-- Witness for C2: the concrete timeout scenario of C1, keyed as payment id
`pay1`. -/
theorem settlement_only_after_confirmation_witness :
    (∀ e ∈ (execute_payment_secure c1_env [c1_sender] c2_info.telegram_id
        c2_info.payment_data 100).2.2,
      e.isLedgerWrite = true ∨ e.isNotifWrite = true →
      ∃ k, Event.netPoll k TxStatus.confirmed
        ∈ (execute_payment_secure c1_env [c1_sender] c2_info.telegram_id
            c2_info.payment_data 100).2.2) ∧
    (∀ e', (execute_payment_secure c1_env [c1_sender] c2_info.telegram_id
          c2_info.payment_data 100).1 = ExecResult.err e' →
      e' = PayErr.onChainFailed ∨ e' = PayErr.confirmTimeout →
      (execute_payment_secure c1_env [c1_sender] c2_info.telegram_id
          c2_info.payment_data 100).1.isOk = false ∧
      ∀ e ∈ (execute_payment_secure c1_env [c1_sender] c2_info.telegram_id
          c2_info.payment_data 100).2.2,
        e.isLedgerWrite = false ∧ e.isNotifWrite = false) ∧
    ((payment_callback_handler c1_env [c1_sender] [("pay1", c2_info)] 7 "pay1"
        HandlerAction.confirm 100).2.2.1.lookup "pay1" = none ∧
      (payment_callback_handler c1_env
        (payment_callback_handler c1_env [c1_sender] [("pay1", c2_info)] 7 "pay1"
          HandlerAction.confirm 100).2.1
        (payment_callback_handler c1_env [c1_sender] [("pay1", c2_info)] 7 "pay1"
          HandlerAction.confirm 100).2.2.1
        7 "pay1" HandlerAction.confirm 101).1 = HandlerResp.expired) :=
  settlement_only_after_confirmation c1_env [c1_sender] [("pay1", c2_info)] 7
    "pay1" c2_info 100 101 (by decide) (by decide)

/-- A successful import implies the decoded bytes had length 64. -/
theorem import_check_success_len {from_bytes : List ℕ → Option String}
    {pk : String} {decoded : List ℕ}
    (h : (import_check from_bytes pk decoded).success = true) :
    decoded.length = 64 := by
  simp only [import_check] at h
  split at h
  · cases h
  · next hlen => exact not_ne_iff.mp hlen

/-- A wrong decoded length yields a failure result with an error message. -/
theorem import_check_len_fail {from_bytes : List ℕ → Option String}
    {pk : String} {decoded : List ℕ} (h : decoded.length ≠ 64) :
    (import_check from_bytes pk decoded).success = false ∧
    (import_check from_bytes pk decoded).error.isSome = true := by
  simp [import_check, h]

/-- C10: wallet import never raises (the model is total by construction and
mirrors the source's blanket exception handlers) and returns a result
structure; it succeeds only if the stripped input decodes — as base58, or
failing that as hex — to exactly 64 bytes, and whenever the input does not so
decode it returns a failure result carrying an error message (and no wallet
is created: the function performs no store operation at all). -/
theorem import_from_private_key_safe (from_bytes : List ℕ → Option String)
    (s : String) :
    ((import_from_private_key from_bytes s).success = true →
      decodes_to_64 (py_strip s) = true) ∧
    (decodes_to_64 (py_strip s) = false →
      (import_from_private_key from_bytes s).success = false ∧
      (import_from_private_key from_bytes s).error.isSome = true) := by
  simp only [import_from_private_key]
  split
  next decoded hdec =>
    constructor
    · intro h
      have hlen := import_check_success_len h
      simp [decodes_to_64, hdec, hlen]
    · intro h
      simp only [decodes_to_64, hdec, beq_iff_eq] at h
      exact import_check_len_fail (by simpa using h)
  next hdec =>
    split
    next decoded hhex =>
      constructor
      · intro h
        have hlen := import_check_success_len h
        simp [decodes_to_64, hdec, hhex, hlen]
      · intro h
        simp only [decodes_to_64, hdec, hhex, beq_iff_eq] at h
        exact import_check_len_fail (by simpa using h)
    next hhex =>
      constructor
      · intro h
        cases h
      · intro h
        exact ⟨rfl, rfl⟩

/-- Witness for C10: `zz` is valid base58 but decodes to 2 bytes, so the
wallet import fails with an error message. -/
theorem import_from_private_key_safe_witness :
    (import_from_private_key (fun _ => some "PUB") "zz").success = false ∧
    (import_from_private_key (fun _ => some "PUB") "zz").error.isSome = true :=
  (import_from_private_key_safe (fun _ => some "PUB") "zz").2 (by decide)

/-- C9: For the native asset, the fee estimate with `needsAccountCreation = true`
minus the estimate with `needsAccountCreation = false` equals the configured
rent-exemption constant exactly.  (Checked separately that the IEEE-754 double
computation in the source also satisfies this equality exactly.) -/
theorem fee_estimate_rent_exemption_delta :
    estimate_network_fee true Token.SOL - estimate_network_fee false Token.SOL
      = RENT_EXEMPTION_FEE := by
  simp [estimate_network_fee]

end Cortex
